import Mathlib

/-!
# network_tools: Wake-on-LAN handler and adaptive grid layout

A shallow embedding of `network_tools.go`.

* The `button_wol` closure of `main` is embedded as a function from the
  answers of the operating system and of the Go `net` package (gathered in
  the structure `Net`) to a final `WolState`: the ordered trace of the
  external calls, the text shown in `data3`, the array `mp` and the state of
  the UDP socket.
* `adaptiveGridLayoutWithRatios.Layout` is embedded over exact rational
  arithmetic; the result is `none` when the Go code panics on `g.ratios[i]`.
* `generate_context` is embedded as the list of grids (ratios and children)
  that it hands to `NewAdaptiveGridWithRatios`.
-/

namespace NetworkTools

/-! ## Data model of the Wake-on-LAN handler -/

/-- An IP address, `net.IP`: a slice of bytes. -/
abbrev IP := List Nat

/-- The Go type `net.UDPAddr`. -/
structure UDPAddr where
  ip : IP
  port : Nat
  zone : String
deriving DecidableEq, Repr

/-- The Go type `net.Interface`, as far as the handler looks at it. -/
structure Interface where
  name : String
  hardwareAddr : List Nat
deriving DecidableEq, Repr

/-- The dynamic type of a `net.Addr` value returned by `Interface.Addrs`:
the type switch of the handler only has a case for `*net.IPNet`. -/
inductive Addr where
  | ipNet (ip : IP) (mask : List Nat)
  | ipAddr (ip : IP) (zone : String)
  | other (s : String)
deriving DecidableEq, Repr

/-- State of the UDP socket of one run of the handler. -/
inductive Sock where
  | absent
  | opened
  | closed
deriving DecidableEq, Repr

/-- The calls the handler makes to the outside, in the order it makes them.
`log` stands for `log.Println` and `fmt.Println`, `setText` for
`data3.SetText`. -/
inductive Event where
  | log (s : String)
  | setText (s : String)
  | parseMAC (s : String)
  | resolveUDPAddr (network addr : String)
  | interfaceByName (name : String)
  | addrs (ifi : Option Interface)
  | dialUDP (network : String) (laddr raddr : Option UDPAddr)
  | write (b : List Nat)
  | close
deriving DecidableEq, Repr

/-- The answers of the Go `net` package and of the operating system.  A Go
`error` is represented by its message.  `addrs` receives `none` for the nil
`*Interface` left by a failed `InterfaceByName`, and returns both results of
`Addrs` (the slice and the error).  `write` returns `(n, err)`. -/
structure Net where
  parseMAC : String → Except String (List Nat)
  resolveUDPAddr : String → String → Except String UDPAddr
  interfaceByName : String → Except String Interface
  addrs : Option Interface → List Addr × Option String
  isLoopback : IP → Bool
  to4 : IP → Option IP
  dialUDP : String → Option UDPAddr → Option UDPAddr → Except String Unit
  write : List Nat → Nat × Option String

/-- What one run of the handler leaves behind. -/
structure WolState where
  trace : List Event
  data3 : Option String
  mp : List Nat
  sock : Sock
deriving DecidableEq, Repr

/-- Append one external call to the trace. -/
def WolState.emit (s : WolState) (e : Event) : WolState :=
  { s with trace := s.trace ++ [e] }

/-- The call `data3.SetText(text)`. -/
def WolState.setText (s : WolState) (text : String) : WolState :=
  { s with trace := s.trace ++ [Event.setText text], data3 := some text }

/-- The call `conn.Close()`: an open socket becomes closed; closing again
only returns an error, which the handler drops. -/
def Sock.close : Sock → Sock
  | Sock.absent => Sock.absent
  | Sock.opened => Sock.closed
  | Sock.closed => Sock.closed

/-- The call `conn.Close()` on the handler state. -/
def WolState.closeConn (s : WolState) : WolState :=
  { s with trace := s.trace ++ [Event.close], sock := s.sock.close }

/-! ## Packet construction -/

/-- The Go builtin `copy(dst[off:], src)`: it copies
`min (len dst - off) (len src)` elements. -/
def copy (dst : List Nat) (off : Nat) (src : List Nat) : List Nat :=
  let n := min (dst.length - off) src.length
  dst.take off ++ src.take n ++ dst.drop (off + n)

/-- Lines 291-297: the synchronisation prefix, then sixteen times
`copy(mp[offset:], mac); offset += 6`. -/
def magicPacket (mp mac : List Nat) : List Nat :=
  let mp := copy mp 0 [255, 255, 255, 255, 255, 255]
  ((List.range 16).foldl
    (fun (st : List Nat × Nat) _ => (copy st.1 st.2 mac, st.2 + 6)) (mp, 6)).1

/-! ## Source address selection -/

/-- Lines 309-318: the loop over `addresses`.  Every `*net.IPNet` whose IP is
not a loopback address and has an IPv4 form overwrites `localUdpIp`; the loop
has no `break`. -/
def selectLocal (net : Net) (addresses : List Addr) : Option UDPAddr :=
  addresses.foldl
    (fun (localUdpIp : Option UDPAddr) localaddr =>
      match localaddr with
      | Addr.ipNet ip _ =>
        if !net.isLoopback ip && (net.to4 ip).isSome then
          some { ip := ip, port := 0, zone := "" }
        else localUdpIp
      | _ => localUdpIp)
    none

/-- The condition of line 314 on one address of the list. -/
def qualifies (net : Net) : Addr → Bool
  | Addr.ipNet ip _ => !net.isLoopback ip && (net.to4 ip).isSome
  | _ => false

/-- The IP carried by an address. -/
def Addr.ip? : Addr → Option IP
  | Addr.ipNet ip _ => some ip
  | Addr.ipAddr ip _ => some ip
  | Addr.other _ => none

/-! ## Hexadecimal dump -/

/-- The verb `%02x` applied to a byte: two lowercase hexadecimal digits. -/
def hex02 (b : Nat) : String :=
  String.mk [Nat.digitChar (b / 16), Nat.digitChar (b % 16)]

/-- Lines 348-356: the text shown after a successful send. -/
def hexDump (mp : List Nat) : String :=
  (List.range 102).foldl
    (fun (text : String) i =>
      let text := text ++ hex02 (mp.getD i 0)
      if (i + 1) % 16 = 0 then text ++ "\n" else text ++ " ")
    "Magic Packet sent : \n"

/-! ## The handler -/

/-- Lines 338-358: the part of the handler that runs after
`defer conn.Close()`. -/
def afterDial (net : Net) (s : WolState) : WolState :=
  let s := s.emit (Event.write s.mp)
  match (net.write s.mp).2 with
  | some e =>
    let s := s.emit (Event.log ("Magic Packet error sent" ++ e))
    s.setText ("Magic Packet error sent" ++ e)
  | none =>
    let s := s.closeConn
    let text := hexDump s.mp
    let s := s.emit (Event.log text)
    s.setText text

/-- Lines 271-359: the closure given to `widget.NewButton("Run", ...)` for
Wake-on-LAN.  The arguments are `entry_wolmac.Text`,
`entry_broadcastaddr.Text`, `entry_wolport.Text` and
`combo_interface.Selected`. -/
def button_wol (net : Net) (wolmac broadcastaddr wolport selected : String) :
    WolState :=
  let s : WolState :=
    { trace := [], data3 := none, mp := List.replicate 102 0, sock := Sock.absent }
  let s := s.emit (Event.log "Wol")
  let s := s.emit (Event.parseMAC wolmac)
  match net.parseMAC wolmac with
  | Except.error _ =>
    let s := s.emit (Event.log "Error Parqing  mac")
    s.setText "Error Parsing Mac "
  | Except.ok mac =>
    if mac.length ≠ 6 then
      let s := s.emit (Event.log "Error Len mac")
      s.setText "Error Len Mac "
    else
      let addr := broadcastaddr ++ ":" ++ wolport
      let s := s.emit (Event.resolveUDPAddr "udp" addr)
      -- the error of `ResolveUDPAddr` is overwritten at line 299, unread
      let udpAddr : Option UDPAddr :=
        match net.resolveUDPAddr "udp" addr with
        | Except.ok a => some a
        | Except.error _ => none
      let s := { s with mp := magicPacket s.mp mac }
      let s := s.emit (Event.interfaceByName selected)
      let (byNameInterface, s) : Option Interface × WolState :=
        match net.interfaceByName selected with
        | Except.ok ifi => (some ifi, s)
        | Except.error e => (none, s.emit (Event.log e))
      let s := s.emit (Event.addrs byNameInterface)
      let addresses := (net.addrs byNameInterface).1
      let s :=
        match (net.addrs byNameInterface).2 with
        | some e => s.emit (Event.log e)
        | none => s
      let localUdpIp := selectLocal net addresses
      let s := s.emit (Event.dialUDP "udp" localUdpIp udpAddr)
      match net.dialUDP "udp" localUdpIp udpAddr with
      | Except.error e =>
        let s := s.emit (Event.log "Error set udp socket")
        s.setText ("Error set udp socket " ++ e)
      | Except.ok _ =>
        let s := { s with sock := Sock.opened }
        -- `defer conn.Close()` runs when the rest of the body has returned
        (afterDial net s).closeConn

/-! ## A concrete environment, for evaluation -/

/-- An environment in which the interface has two IPv4 addresses after a
loopback one, every call succeeds, and `Write` writes the whole datagram. -/
def sampleNet : Net where
  parseMAC := fun _ => Except.ok [0x11, 0x22, 0x33, 0x44, 0x55, 0x66]
  resolveUDPAddr := fun _ _ =>
    Except.ok { ip := [255, 255, 255, 255], port := 9, zone := "" }
  interfaceByName := fun n => Except.ok { name := n, hardwareAddr := [2, 0, 0, 0, 0, 1] }
  addrs := fun _ =>
    ([Addr.ipNet [127, 0, 0, 1] [255, 0, 0, 0],
      Addr.ipNet [192, 168, 1, 10] [255, 255, 255, 0],
      Addr.ipNet [10, 0, 0, 5] [255, 0, 0, 0]], none)
  isLoopback := fun ip => ip.head? == some 127
  to4 := fun ip => if ip.length = 4 then some ip else none
  dialUDP := fun _ _ _ => Except.ok ()
  write := fun b => (b.length, none)

/-- An environment in which `ParseMAC` fails. -/
def badMacNet : Net :=
  { sampleNet with parseMAC := fun _ => Except.error "address zz: invalid MAC address" }

/-- An environment in which `ResolveUDPAddr` fails, and `DialUDP` refuses a
nil remote address. -/
def noDestNet : Net :=
  { sampleNet with
    resolveUDPAddr := fun _ a => Except.error ("address " ++ a ++ ": no such host")
    dialUDP := fun _ _ raddr =>
      match raddr with
      | none => Except.error "dial udp: missing address"
      | some _ => Except.ok () }

/-- An environment in which the interface lookup fails, so that `Addrs` is
called on a nil interface and returns no address. -/
def noIfaceNet : Net :=
  { sampleNet with
    interfaceByName := fun _ => Except.error "route ip+net: no such network interface"
    addrs := fun ifi =>
      match ifi with
      | none => ([], some "route ip+net: invalid network interface")
      | some _ => ([Addr.ipNet [192, 168, 1, 10] [255, 255, 255, 0]], none) }

/-- An environment in which `Write` fails and writes nothing. -/
def writeErrNet : Net :=
  { sampleNet with write := fun _ => (0, some "write: network is unreachable") }

/-! ## Vocabulary of the statements -/

/-- The remote address handed to `DialUDP`: nil when `ResolveUDPAddr` failed. -/
def resolved (net : Net) (broadcastaddr wolport : String) : Option UDPAddr :=
  (net.resolveUDPAddr "udp" (broadcastaddr ++ ":" ++ wolport)).toOption

/-- The slice `addresses` of the handler. -/
def addressesOf (net : Net) (selected : String) : List Addr :=
  (net.addrs (net.interfaceByName selected).toOption).1

/-- The trace of the handler up to, not including, the call of `DialUDP`,
when the MAC is valid. -/
def wolLead (net : Net) (wolmac broadcastaddr wolport selected : String) : List Event :=
  [Event.log "Wol", Event.parseMAC wolmac,
    Event.resolveUDPAddr "udp" (broadcastaddr ++ ":" ++ wolport),
    Event.interfaceByName selected] ++
  (match net.interfaceByName selected with
    | Except.ok _ => []
    | Except.error e => [Event.log e]) ++
  [Event.addrs (net.interfaceByName selected).toOption] ++
  (match (net.addrs (net.interfaceByName selected).toOption).2 with
    | some e => [Event.log e]
    | none => [])

/-- The address that the last qualifying entry of the list gives. -/
def lastQualifying (net : Net) (addresses : List Addr) : Option UDPAddr :=
  ((addresses.filter (qualifies net)).getLast?).bind
    (fun a => a.ip?.map (fun ip => { ip := ip, port := 0, zone := "" }))

/-- One line of the dump: the bytes in `%02x`, separated by single spaces. -/
def row (bs : List Nat) : String :=
  " ".intercalate (bs.map hex02)

/-! ## The adaptive grid layout -/

/-- A child of a container: `Visible()`, and the rectangle set by `Move` and `Resize`. -/
structure CanvasObject where
  visible : Bool
  pos : ℚ × ℚ
  size : ℚ × ℚ
deriving DecidableEq, Repr

/-- Lines 29-32. -/
structure adaptiveGridLayoutWithRatios where
  ratios : List ℚ
  adapt : Bool
  vertical : Bool
deriving DecidableEq, Repr

/-- Lines 34-36. -/
def NewAdaptiveGridLayoutWithRatios (ratios : List ℚ) : adaptiveGridLayoutWithRatios :=
  { ratios := ratios, adapt := true, vertical := false }

/-- Lines 38-44; `deviceHorizontal` is
`fyne.IsHorizontal(fyne.CurrentDevice().Orientation())`. -/
def adaptiveGridLayoutWithRatios.horizontal (g : adaptiveGridLayoutWithRatios)
    (deviceHorizontal : Bool) : Bool :=
  if g.adapt then deviceHorizontal else !g.vertical

/-- The counter of lines 47-52. -/
def visibleCount (objects : List CanvasObject) : Nat :=
  objects.foldl (fun count child => if child.visible then count + 1 else count) 0

/-- Lines 46-55, in exact arithmetic.  The Go code divides by `len(g.ratios)`;
for an empty `ratios` the value here is 0 and is not meant to model the code. -/
def adaptiveGridLayoutWithRatios.countRows (g : adaptiveGridLayoutWithRatios)
    (objects : List CanvasObject) : Int :=
  ⌈((visibleCount objects : ℚ)) / ((g.ratios.length : ℚ))⌉

/-- The value of `tcellWidth` when the loop of `Layout` starts (lines 62-75). -/
def adaptiveGridLayoutWithRatios.tcellWidth (g : adaptiveGridLayoutWithRatios)
    (deviceHorizontal : Bool) (padding : ℚ) (objects : List CanvasObject) (size : ℚ × ℚ) : ℚ :=
  let rows := g.countRows objects
  let cols : Int := g.ratios.length
  let padWidth : ℚ := ((cols - 1 : Int) : ℚ) * padding
  let padHeight : ℚ := ((rows - 1 : Int) : ℚ) * padding
  let tGap := padWidth
  let tcellWidth := size.1 - tGap
  if !g.horizontal deviceHorizontal then
    let padWidth := padHeight
    (size.1 - padWidth) - tGap
  else tcellWidth

/-- The value of `cellHeight` when the loop of `Layout` starts (lines 62-75). -/
def adaptiveGridLayoutWithRatios.cellHeight (g : adaptiveGridLayoutWithRatios)
    (deviceHorizontal : Bool) (padding : ℚ) (objects : List CanvasObject) (size : ℚ × ℚ) : ℚ :=
  let rows := g.countRows objects
  let cols : Int := g.ratios.length
  let padWidth : ℚ := ((cols - 1 : Int) : ℚ) * padding
  let padHeight : ℚ := ((rows - 1 : Int) : ℚ) * padding
  let cellHeight := (size.2 - padHeight) / (rows : ℚ)
  if !g.horizontal deviceHorizontal then
    let padHeight := padWidth
    (size.2 - padHeight) / (cols : ℚ)
  else cellHeight

/-- The variables of the loop of `Layout` (lines 77-79). -/
structure LoopState where
  row : Nat
  col : Nat
  i : Nat
  x1 : ℚ
  x2 : ℚ
  y1 : ℚ
  y2 : ℚ
deriving DecidableEq, Repr

/-- One iteration of the loop of lines 80-114.  `none` is the run-time panic
of `g.ratios[i]` when `i` is not an index of `ratios`. -/
def layoutStep (ratios : List ℚ) (horizontal : Bool) (padding tcellWidth cellHeight : ℚ)
    (st : LoopState) (child : CanvasObject) : Option (LoopState × CanvasObject) :=
  if !child.visible then some (st, child)
  else
    let x1 := if st.i = 0 then 0 else st.x2 + padding * 1
    let y1 := if st.i = 0 then 0 else st.y2 - cellHeight
    match ratios[st.i]? with
    | none => none
    | some r =>
      let x2 := x1 + tcellWidth * r
      let y2 := cellHeight
      let child := { child with pos := (x1, y1), size := (x2 - x1, y2 - y1) }
      let cols := ratios.length
      let (row, col) :=
        if horizontal then
          if (st.i + 1) % cols = 0 then (st.row + 1, 0) else (st.row, st.col + 1)
        else
          if (st.i + 1) % cols = 0 then (0, st.col + 1) else (st.row + 1, st.col)
      some ({ row := row, col := col, i := st.i + 1, x1 := x1, x2 := x2, y1 := y1, y2 := y2 },
        child)

/-- The loop of lines 80-114 over the children, in order. -/
def layoutLoop (ratios : List ℚ) (horizontal : Bool) (padding tcellWidth cellHeight : ℚ) :
    List CanvasObject → LoopState → Option (List CanvasObject)
  | [], _ => some []
  | child :: rest, st =>
    match layoutStep ratios horizontal padding tcellWidth cellHeight st child with
    | none => none
    | some (st, child) =>
      match layoutLoop ratios horizontal padding tcellWidth cellHeight rest st with
      | none => none
      | some out => some (child :: out)

/-- Lines 60-115.  The result lists the children with the rectangles given to
them, or is `none` when the index `g.ratios[i]` is out of range. -/
def adaptiveGridLayoutWithRatios.Layout (g : adaptiveGridLayoutWithRatios)
    (deviceHorizontal : Bool) (padding : ℚ) (objects : List CanvasObject) (size : ℚ × ℚ) :
    Option (List CanvasObject) :=
  layoutLoop g.ratios (g.horizontal deviceHorizontal) padding
    (g.tcellWidth deviceHorizontal padding objects size)
    (g.cellHeight deviceHorizontal padding objects size) objects
    { row := 0, col := 0, i := 0, x1 := 0, x2 := 0, y1 := 0, y2 := 0 }

/-! ## Vocabulary of the layout statements -/

/-- Two rectangles overlap when their interiors meet. -/
def overlaps (a b : CanvasObject) : Prop :=
  a.pos.1 < b.pos.1 + b.size.1 ∧ b.pos.1 < a.pos.1 + a.size.1 ∧
  a.pos.2 < b.pos.2 + b.size.2 ∧ b.pos.2 < a.pos.2 + a.size.2

instance (a b : CanvasObject) : Decidable (overlaps a b) := by
  unfold overlaps; infer_instance


/-- A container made by `NewAdaptiveGridWithRatios`: its layout and its children. -/
structure Container where
  layout : adaptiveGridLayoutWithRatios
  objects : List CanvasObject
deriving DecidableEq, Repr

/-- Lines 22-24. -/
def NewAdaptiveGridWithRatios (ratios : List ℚ) (objects : List CanvasObject) : Container :=
  { layout := NewAdaptiveGridLayoutWithRatios ratios, objects := objects }

/-- The arguments `objects[k₁], objects[k₂], ...` of one call; `none` is the
run-time panic of an index out of range. -/
def pick (objects : List CanvasObject) : List Nat → Option (List CanvasObject)
  | [] => some []
  | k :: ks =>
    match objects[k]? with
    | none => none
    | some o =>
      match pick objects ks with
      | none => none
      | some os => some (o :: os)

/-- The call `NewAdaptiveGridWithRatios(ratios, objects[k₁], objects[k₂], ...)`. -/
def gridOf (objects : List CanvasObject) (ratios : List ℚ) (ks : List Nat) : Option Container :=
  match pick objects ks with
  | none => none
  | some os => some (NewAdaptiveGridWithRatios ratios os)

/-- The call `container.NewVBox(...)`, whose arguments are evaluated first. -/
def NewVBox : List (Option Container) → Option (List Container)
  | [] => some []
  | none :: _ => none
  | some c :: rest =>
    match NewVBox rest with
    | none => none
    | some cs => some (c :: cs)

/-- Lines 189-231: the grids put in the `VBox`, in order. -/
def generate_context (index : Int) (objects : List CanvasObject) : Option (List Container) :=
  match index with
  | 1 =>
    NewVBox [
      gridOf objects [0.25, 0.25, 0.25, 0.25] [0, 1, 2, 3],
      gridOf objects [0.25, 0.25, 0.5] [7, 8, 4],
      gridOf objects [1] [9],
      gridOf objects [1] [4]]
  | 2 =>
    NewVBox [
      gridOf objects [0.25, 0.25, 0.25, 0.25] [0, 1, 2, 3],
      gridOf objects [0.25, 0.5, 0.25] [7, 8, 9],
      gridOf objects [1] [10],
      gridOf objects [0.1, 0.9] [5, 6]]
  | 3 =>
    NewVBox [
      gridOf objects [0.25, 0.25, 0.25, 0.25] [0, 1, 2, 3],
      gridOf objects [0.25, 0.35, 0.15, 0.25] [7, 8, 9, 10],
      gridOf objects [0.25, 0.35, 0.40] [12, 13, 4],
      gridOf objects [1] [11],
      gridOf objects [0.1, 0.9] [5, 6]]
  | 4 =>
    NewVBox [
      gridOf objects [0.25, 0.25, 0.25, 0.25] [0, 1, 2, 3],
      gridOf objects [1] [4],
      gridOf objects [0.25, 0.5, 0.25] [4, 5, 4]]
  | _ =>
    NewVBox [
      gridOf objects [0.25, 0.25, 0.25, 0.25] [0, 1, 2, 3]]

/-- A child with no rectangle yet. -/
def obj (v : Bool) : CanvasObject :=
  { visible := v, pos := (0, 0), size := (0, 0) }

/-! ## Lemmas on the Wake-on-LAN handler -/

theorem magicPacket_six (a b c d e f : Nat) :
    magicPacket (List.replicate 102 0) [a, b, c, d, e, f] =
      List.replicate 6 255 ++ (List.replicate 16 [a, b, c, d, e, f]).flatten := by
  simp [magicPacket, copy, List.range, List.range.loop, List.replicate]

theorem length_six {m : List Nat} (hm : m.length = 6) :
    ∃ a b c d e f, m = [a, b, c, d, e, f] := by
  match m, hm with
  | [a, b, c, d, e, f], _ => exact ⟨a, b, c, d, e, f, rfl⟩

theorem magicPacket_length (m : List Nat) (hm : m.length = 6) :
    (magicPacket (List.replicate 102 0) m).length = 102 := by
  obtain ⟨a, b, c, d, e, f, rfl⟩ := length_six hm
  rw [magicPacket_six]
  rfl

/-- The handler when `ParseMAC` fails (lines 275-280). -/
theorem button_wol_parse_error (net : Net) (wolmac ba port sel e : String)
    (hp : net.parseMAC wolmac = Except.error e) :
    button_wol net wolmac ba port sel =
      { trace := [Event.log "Wol", Event.parseMAC wolmac, Event.log "Error Parqing  mac",
          Event.setText "Error Parsing Mac "],
        data3 := some "Error Parsing Mac ", mp := List.replicate 102 0, sock := Sock.absent } := by
  unfold button_wol
  simp only [hp, WolState.emit, WolState.setText, List.nil_append, List.cons_append]

/-- The handler when the parsed address has not six bytes (lines 281-286). -/
theorem button_wol_bad_length (net : Net) (wolmac ba port sel : String) (m : List Nat)
    (hp : net.parseMAC wolmac = Except.ok m) (hm : m.length ≠ 6) :
    button_wol net wolmac ba port sel =
      { trace := [Event.log "Wol", Event.parseMAC wolmac, Event.log "Error Len mac",
          Event.setText "Error Len Mac "],
        data3 := some "Error Len Mac ", mp := List.replicate 102 0, sock := Sock.absent } := by
  unfold button_wol
  simp only [hp, hm, ne_eq, not_false_eq_true, if_true, WolState.emit, WolState.setText,
    List.nil_append, List.cons_append]

/-- The handler when the MAC is valid: the three ways it can end. -/
theorem button_wol_valid (net : Net) (wolmac ba port sel : String) (m : List Nat)
    (hp : net.parseMAC wolmac = Except.ok m) (hm : m.length = 6) :
    button_wol net wolmac ba port sel =
      match net.dialUDP "udp" (selectLocal net (addressesOf net sel)) (resolved net ba port) with
      | Except.error e =>
        { trace := wolLead net wolmac ba port sel ++
            [Event.dialUDP "udp" (selectLocal net (addressesOf net sel)) (resolved net ba port),
              Event.log "Error set udp socket",
              Event.setText ("Error set udp socket " ++ e)],
          data3 := some ("Error set udp socket " ++ e),
          mp := magicPacket (List.replicate 102 0) m, sock := Sock.absent }
      | Except.ok _ =>
        match (net.write (magicPacket (List.replicate 102 0) m)).2 with
        | some e =>
          { trace := wolLead net wolmac ba port sel ++
              [Event.dialUDP "udp" (selectLocal net (addressesOf net sel)) (resolved net ba port),
                Event.write (magicPacket (List.replicate 102 0) m),
                Event.log ("Magic Packet error sent" ++ e),
                Event.setText ("Magic Packet error sent" ++ e), Event.close],
            data3 := some ("Magic Packet error sent" ++ e),
            mp := magicPacket (List.replicate 102 0) m, sock := Sock.closed }
        | none =>
          { trace := wolLead net wolmac ba port sel ++
              [Event.dialUDP "udp" (selectLocal net (addressesOf net sel)) (resolved net ba port),
                Event.write (magicPacket (List.replicate 102 0) m), Event.close,
                Event.log (hexDump (magicPacket (List.replicate 102 0) m)),
                Event.setText (hexDump (magicPacket (List.replicate 102 0) m)), Event.close],
            data3 := some (hexDump (magicPacket (List.replicate 102 0) m)),
            mp := magicPacket (List.replicate 102 0) m, sock := Sock.closed } := by
  unfold button_wol
  simp only [hp, hm, ne_eq, not_true_eq_false, if_false, resolved, addressesOf, wolLead,
    afterDial, WolState.emit, WolState.setText, WolState.closeConn]
  generalize magicPacket (List.replicate 102 0) m = pkt
  rcases h1 : net.interfaceByName sel with e1 | ifi <;>
  rcases h3 : net.resolveUDPAddr "udp" (ba ++ ":" ++ port) with e3 | a3 <;>
  simp only [Except.toOption] <;>
  rcases h2 : (net.addrs _).2 with _ | e2 <;>
  rcases h4 : net.dialUDP "udp" _ _ with e4 | _ <;>
  rcases h5 : (net.write pkt).2 with _ | e5 <;>
  simp [Sock.close, h2, h5]

theorem button_wol_mp (net : Net) (wolmac ba port sel : String) (m : List Nat)
    (hp : net.parseMAC wolmac = Except.ok m) (hm : m.length = 6) :
    (button_wol net wolmac ba port sel).mp = magicPacket (List.replicate 102 0) m := by
  rw [button_wol_valid net wolmac ba port sel m hp hm]
  split
  · rfl
  · split <;> rfl

/-- The call of `DialUDP` is reached whenever the MAC is valid. -/
theorem button_wol_dial_mem (net : Net) (wolmac ba port sel : String) (m : List Nat)
    (hp : net.parseMAC wolmac = Except.ok m) (hm : m.length = 6) :
    Event.dialUDP "udp" (selectLocal net (addressesOf net sel)) (resolved net ba port) ∈
      (button_wol net wolmac ba port sel).trace := by
  rw [button_wol_valid net wolmac ba port sel m hp hm]
  split
  · simp
  · split <;> simp

theorem selectLocal_append (net : Net) (l : List Addr) (a : Addr) :
    selectLocal net (l ++ [a]) =
      if qualifies net a then a.ip?.map (fun ip => { ip := ip, port := 0, zone := "" })
      else selectLocal net l := by
  unfold selectLocal
  rw [List.foldl_append]
  cases a <;> simp [qualifies, Addr.ip?]

/-- The loop of lines 311-318 keeps the last qualifying address. -/
theorem selectLocal_eq_lastQualifying (net : Net) (l : List Addr) :
    selectLocal net l = lastQualifying net l := by
  induction l using List.reverseRecOn with
  | nil => rfl
  | append_singleton l a ih =>
    rw [selectLocal_append]
    unfold lastQualifying at *
    rw [List.filter_append]
    cases hq : qualifies net a
    · simpa [hq] using ih
    · simp [hq]

theorem eq_map_getD (mp : List Nat) (s n : Nat) (h : s + n ≤ mp.length) :
    (List.range' s n).map (fun i => mp.getD i 0) = (mp.drop s).take n := by
  apply List.ext_getElem
  · simp; omega
  · intro i h1 h2
    simp at h1
    simp [List.getD_eq_getElem?_getD, List.getElem?_eq_getElem (show s + i < mp.length by omega)]

set_option maxRecDepth 100000 in
/-- The loop of lines 348-356, unrolled: seven lines, the last one of six
bytes and closed by a space instead of a line feed. -/
theorem hexDump_unrolled (mp : List Nat) :
    hexDump mp =
      "Magic Packet sent : \n" ++
      row ((List.range 16).map (fun i => mp.getD i 0)) ++ "\n" ++
      row ((List.range' 16 16).map (fun i => mp.getD i 0)) ++ "\n" ++
      row ((List.range' 32 16).map (fun i => mp.getD i 0)) ++ "\n" ++
      row ((List.range' 48 16).map (fun i => mp.getD i 0)) ++ "\n" ++
      row ((List.range' 64 16).map (fun i => mp.getD i 0)) ++ "\n" ++
      row ((List.range' 80 16).map (fun i => mp.getD i 0)) ++ "\n" ++
      row ((List.range' 96 6).map (fun i => mp.getD i 0)) ++ " " := by
  generalize hg : (fun i => mp.getD i 0) = g
  have hg2 : ∀ i, mp.getD i 0 = g i := fun i => by rw [← hg]
  simp only [hexDump, hg2]
  simp only [List.range, List.range.loop, List.range', List.foldl_cons, List.foldl_nil, row,
    List.map_cons, List.map_nil, String.intercalate, String.intercalate.go, String.append_assoc]
  simp [String.append_assoc]

theorem hexDump_rows (mp : List Nat) (h : mp.length = 102) :
    hexDump mp =
      "Magic Packet sent : \n" ++
      row (mp.take 16) ++ "\n" ++
      row ((mp.drop 16).take 16) ++ "\n" ++
      row ((mp.drop 32).take 16) ++ "\n" ++
      row ((mp.drop 48).take 16) ++ "\n" ++
      row ((mp.drop 64).take 16) ++ "\n" ++
      row ((mp.drop 80).take 16) ++ "\n" ++
      row (mp.drop 96) ++ " " := by
  rw [hexDump_unrolled, List.range_eq_range', eq_map_getD mp 0 16 (by omega),
    eq_map_getD mp 16 16 (by omega), eq_map_getD mp 32 16 (by omega),
    eq_map_getD mp 48 16 (by omega), eq_map_getD mp 64 16 (by omega),
    eq_map_getD mp 80 16 (by omega), eq_map_getD mp 96 6 (by omega)]
  have h6 : (mp.drop 96).take 6 = mp.drop 96 := List.take_of_length_le (by simp; omega)
  rw [h6, List.drop_zero]

/-- The text of a send error is never the text of the dump. -/
theorem hexDump_ne_error (mp : List Nat) (e : String) :
    "Magic Packet error sent" ++ e ≠ hexDump mp := by
  rw [hexDump_unrolled]
  intro h
  have := congrArg String.data h
  simp [String.data_append] at this

set_option maxRecDepth 1000000 in
/-- On a byte, `hex02` is the hexadecimal numeral padded to two digits. -/
theorem hex02_toDigits : ∀ b, b < 256 →
    hex02 b = String.mk (List.leftpad 2 '0' (Nat.toDigits 16 b)) := by
  decide

set_option maxRecDepth 1000000 in
theorem row_sample :
    row ((magicPacket (List.replicate 102 0) [0x11, 0x22, 0x33, 0x44, 0x55, 0x66]).take 16) =
      "ff ff ff ff ff ff 11 22 33 44 55 66 11 22 33 44" := by
  decide

/-! ## Claims on the Wake-on-LAN handler -/

/-- C1. For every MAC of six bytes, the array `mp` built by the handler has
102 bytes, its bytes 0 to 5 are 255, and its byte `6 + 6 * i + j` is byte `j`
of the MAC for every `i < 16` and `j < 6`. -/
theorem wol_magic_packet (net : Net) (wolmac broadcastaddr wolport selected : String)
    (m : List Nat) (hp : net.parseMAC wolmac = Except.ok m) (hm : m.length = 6) :
    (button_wol net wolmac broadcastaddr wolport selected).mp.length = 102 ∧
    (∀ k, k < 6 → (button_wol net wolmac broadcastaddr wolport selected).mp[k]? = some 255) ∧
    (∀ i j, i < 16 → j < 6 →
      (button_wol net wolmac broadcastaddr wolport selected).mp[6 + 6 * i + j]? = m[j]?) := by
  rw [button_wol_mp net wolmac broadcastaddr wolport selected m hp hm]
  obtain ⟨a, b, c, d, e, f, rfl⟩ := length_six hm
  rw [magicPacket_six]
  refine ⟨rfl, ?_, ?_⟩
  · intro k hk
    interval_cases k <;> rfl
  · intro i j hi hj
    interval_cases i <;> interval_cases j <;> rfl

theorem wol_magic_packet_witness :
    (button_wol sampleNet "11:22:33:44:55:66" "255.255.255.255" "9" "eth0").mp.length = 102 ∧
    (∀ k, k < 6 →
      (button_wol sampleNet "11:22:33:44:55:66" "255.255.255.255" "9" "eth0").mp[k]? =
        some 255) ∧
    (∀ i j, i < 16 → j < 6 →
      (button_wol sampleNet "11:22:33:44:55:66" "255.255.255.255" "9" "eth0").mp[6 + 6 * i + j]? =
        [0x11, 0x22, 0x33, 0x44, 0x55, 0x66][j]?) :=
  wol_magic_packet sampleNet "11:22:33:44:55:66" "255.255.255.255" "9" "eth0"
    [0x11, 0x22, 0x33, 0x44, 0x55, 0x66] rfl (by decide)

/-- C2. When the MAC string does not parse, or parses to an address that has
not six bytes, the handler ends in one of two states: it has shown
"Error Parsing Mac " or "Error Len Mac ", the array `mp` is still all zero,
no socket exists, and the trace holds nothing after `ParseMAC` but the log
line and the `SetText`: no resolution, no interface lookup, no dial, no write. -/
theorem wol_invalid_mac (net : Net) (wolmac broadcastaddr wolport selected : String)
    (h : ∀ m, net.parseMAC wolmac = Except.ok m → m.length ≠ 6) :
    button_wol net wolmac broadcastaddr wolport selected =
      { trace := [Event.log "Wol", Event.parseMAC wolmac, Event.log "Error Parqing  mac",
          Event.setText "Error Parsing Mac "],
        data3 := some "Error Parsing Mac ", mp := List.replicate 102 0, sock := Sock.absent } ∨
    button_wol net wolmac broadcastaddr wolport selected =
      { trace := [Event.log "Wol", Event.parseMAC wolmac, Event.log "Error Len mac",
          Event.setText "Error Len Mac "],
        data3 := some "Error Len Mac ", mp := List.replicate 102 0, sock := Sock.absent } := by
  rcases hp : net.parseMAC wolmac with e | m
  · exact Or.inl (button_wol_parse_error net wolmac broadcastaddr wolport selected e hp)
  · exact Or.inr (button_wol_bad_length net wolmac broadcastaddr wolport selected m hp (h m hp))

theorem wol_invalid_mac_witness :
    button_wol badMacNet "zz" "255.255.255.255" "9" "eth0" =
      { trace := [Event.log "Wol", Event.parseMAC "zz", Event.log "Error Parqing  mac",
          Event.setText "Error Parsing Mac "],
        data3 := some "Error Parsing Mac ", mp := List.replicate 102 0, sock := Sock.absent } ∨
    button_wol badMacNet "zz" "255.255.255.255" "9" "eth0" =
      { trace := [Event.log "Wol", Event.parseMAC "zz", Event.log "Error Len mac",
          Event.setText "Error Len Mac "],
        data3 := some "Error Len Mac ", mp := List.replicate 102 0, sock := Sock.absent } :=
  wol_invalid_mac badMacNet "zz" "255.255.255.255" "9" "eth0"
    (fun _ hp => by simp [badMacNet] at hp)

/-- C3, as the code has it. For every list of addresses of the selected
interface, the local address handed to `DialUDP` is the one of the last entry
of the list that is a `*net.IPNet` with an IPv4, non-loopback IP, and nil when
there is no such entry. -/
theorem wol_source_last_qualifying (net : Net)
    (wolmac broadcastaddr wolport selected : String) (m : List Nat)
    (hp : net.parseMAC wolmac = Except.ok m) (hm : m.length = 6) :
    selectLocal net (addressesOf net selected) = lastQualifying net (addressesOf net selected) ∧
    Event.dialUDP "udp" (lastQualifying net (addressesOf net selected))
        (resolved net broadcastaddr wolport) ∈
      (button_wol net wolmac broadcastaddr wolport selected).trace := by
  refine ⟨selectLocal_eq_lastQualifying net _, ?_⟩
  rw [← selectLocal_eq_lastQualifying]
  exact button_wol_dial_mem net wolmac broadcastaddr wolport selected m hp hm

theorem wol_source_last_qualifying_witness :
    selectLocal sampleNet (addressesOf sampleNet "eth0") =
      lastQualifying sampleNet (addressesOf sampleNet "eth0") ∧
    Event.dialUDP "udp" (lastQualifying sampleNet (addressesOf sampleNet "eth0"))
        (resolved sampleNet "255.255.255.255" "9") ∈
      (button_wol sampleNet "11:22:33:44:55:66" "255.255.255.255" "9" "eth0").trace :=
  wol_source_last_qualifying sampleNet "11:22:33:44:55:66" "255.255.255.255" "9" "eth0"
    [0x11, 0x22, 0x33, 0x44, 0x55, 0x66] rfl (by decide)

/-- C3 as stated fails. With the addresses 127.0.0.1, 192.168.1.10 and
10.0.0.5 the first IPv4 non-loopback address is 192.168.1.10, and the handler
dials from 10.0.0.5; and an IPv4 non-loopback address that is a `*net.IPAddr`
is not chosen at all. -/
theorem wol_source_not_first :
    (addressesOf sampleNet "eth0").find? (qualifies sampleNet) =
      some (Addr.ipNet [192, 168, 1, 10] [255, 255, 255, 0]) ∧
    Event.dialUDP "udp" (some { ip := [10, 0, 0, 5], port := 0, zone := "" })
        (some { ip := [255, 255, 255, 255], port := 9, zone := "" }) ∈
      (button_wol sampleNet "11:22:33:44:55:66" "255.255.255.255" "9" "eth0").trace ∧
    sampleNet.isLoopback [192, 168, 1, 7] = false ∧
    (sampleNet.to4 [192, 168, 1, 7]).isSome = true ∧
    selectLocal sampleNet [Addr.ipAddr [192, 168, 1, 7] ""] = none := by
  decide

/-- C4, on the code. When `ResolveUDPAddr` fails for a valid MAC, its error is
dropped: the handler goes on to call `DialUDP` with a nil remote address, and
what it shows is the socket error of that call. -/
theorem wol_unresolved_reaches_dial (net : Net)
    (wolmac broadcastaddr wolport selected : String) (m : List Nat) (e : String)
    (hp : net.parseMAC wolmac = Except.ok m) (hm : m.length = 6)
    (hres : net.resolveUDPAddr "udp" (broadcastaddr ++ ":" ++ wolport) = Except.error e) :
    Event.dialUDP "udp" (selectLocal net (addressesOf net selected)) none ∈
      (button_wol net wolmac broadcastaddr wolport selected).trace ∧
    (∀ e2, net.dialUDP "udp" (selectLocal net (addressesOf net selected)) none =
        Except.error e2 →
      (button_wol net wolmac broadcastaddr wolport selected).data3 =
        some ("Error set udp socket " ++ e2)) := by
  have hnone : resolved net broadcastaddr wolport = none := by
    simp [resolved, hres, Except.toOption]
  refine ⟨?_, ?_⟩
  · have := button_wol_dial_mem net wolmac broadcastaddr wolport selected m hp hm
    rwa [hnone] at this
  · intro e2 hd
    rw [button_wol_valid net wolmac broadcastaddr wolport selected m hp hm, hnone, hd]

theorem wol_unresolved_reaches_dial_witness :
    Event.dialUDP "udp" (selectLocal noDestNet (addressesOf noDestNet "eth0")) none ∈
      (button_wol noDestNet "11:22:33:44:55:66" "not-an-ip" "9" "eth0").trace ∧
    (∀ e2, noDestNet.dialUDP "udp" (selectLocal noDestNet (addressesOf noDestNet "eth0")) none =
        Except.error e2 →
      (button_wol noDestNet "11:22:33:44:55:66" "not-an-ip" "9" "eth0").data3 =
        some ("Error set udp socket " ++ e2)) :=
  wol_unresolved_reaches_dial noDestNet "11:22:33:44:55:66" "not-an-ip" "9" "eth0"
    [0x11, 0x22, 0x33, 0x44, 0x55, 0x66] "address not-an-ip:9: no such host" rfl (by decide) rfl

/-- C5. Let `Write` obey the contract of `io.Writer`, as the `Write` of a
`*net.UDPConn` does: it returns a non-nil error whenever it returns a count
below the length of what it was given. Then for every outcome `(n, err)` of
the single write of the 102-byte payload, if `err` is non-nil or `n < 102` the
handler shows the send error and never the dump; and it shows the dump only
when `err` is nil and all 102 bytes were written. -/
theorem wol_send_result (net : Net) (wolmac broadcastaddr wolport selected : String)
    (m : List Nat) (hp : net.parseMAC wolmac = Except.ok m) (hm : m.length = 6)
    (hd : net.dialUDP "udp" (selectLocal net (addressesOf net selected))
      (resolved net broadcastaddr wolport) = Except.ok ())
    (hio : ∀ b, (net.write b).1 < b.length → (net.write b).2 ≠ none) :
    (((net.write (magicPacket (List.replicate 102 0) m)).2 ≠ none ∨
        (net.write (magicPacket (List.replicate 102 0) m)).1 < 102) →
      (∃ e, (net.write (magicPacket (List.replicate 102 0) m)).2 = some e ∧
        (button_wol net wolmac broadcastaddr wolport selected).data3 =
          some ("Magic Packet error sent" ++ e)) ∧
      (button_wol net wolmac broadcastaddr wolport selected).data3 ≠
        some (hexDump (magicPacket (List.replicate 102 0) m)) ∧
      Event.setText (hexDump (magicPacket (List.replicate 102 0) m)) ∉
        (button_wol net wolmac broadcastaddr wolport selected).trace) ∧
    ((button_wol net wolmac broadcastaddr wolport selected).data3 =
        some (hexDump (magicPacket (List.replicate 102 0) m)) →
      (net.write (magicPacket (List.replicate 102 0) m)).2 = none ∧
      102 ≤ (net.write (magicPacket (List.replicate 102 0) m)).1) := by
  have hlen := magicPacket_length m hm
  have hio2 := hio (magicPacket (List.replicate 102 0) m)
  rw [hlen] at hio2
  rw [button_wol_valid net wolmac broadcastaddr wolport selected m hp hm, hd]
  generalize magicPacket (List.replicate 102 0) m = pkt at hio2 ⊢
  have hq : Event.setText (hexDump pkt) ∉
      wolLead net wolmac broadcastaddr wolport selected := by
    unfold wolLead
    cases net.interfaceByName selected <;>
      cases (net.addrs _).2 <;> simp
  rcases he : (net.write pkt).2 with _ | e
  · refine ⟨?_, ?_⟩
    · intro h
      rcases h with h | h
      · exact absurd rfl h
      · exact absurd he (hio2 h)
    · intro _
      exact ⟨rfl, Nat.le_of_not_lt (fun h => hio2 h he)⟩
  · have hne := hexDump_ne_error pkt e
    refine ⟨?_, ?_⟩
    · intro _
      refine ⟨⟨e, rfl, rfl⟩, by simpa using hne, by simp [hq, Ne.symm hne]⟩
    · intro h
      exact absurd (Option.some.inj h) hne

theorem wol_send_result_witness :
    (((writeErrNet.write (magicPacket (List.replicate 102 0)
          [0x11, 0x22, 0x33, 0x44, 0x55, 0x66])).2 ≠ none ∨
        (writeErrNet.write (magicPacket (List.replicate 102 0)
          [0x11, 0x22, 0x33, 0x44, 0x55, 0x66])).1 < 102) →
      (∃ e, (writeErrNet.write (magicPacket (List.replicate 102 0)
          [0x11, 0x22, 0x33, 0x44, 0x55, 0x66])).2 = some e ∧
        (button_wol writeErrNet "11:22:33:44:55:66" "255.255.255.255" "9" "eth0").data3 =
          some ("Magic Packet error sent" ++ e)) ∧
      (button_wol writeErrNet "11:22:33:44:55:66" "255.255.255.255" "9" "eth0").data3 ≠
        some (hexDump (magicPacket (List.replicate 102 0)
          [0x11, 0x22, 0x33, 0x44, 0x55, 0x66])) ∧
      Event.setText (hexDump (magicPacket (List.replicate 102 0)
          [0x11, 0x22, 0x33, 0x44, 0x55, 0x66])) ∉
        (button_wol writeErrNet "11:22:33:44:55:66" "255.255.255.255" "9" "eth0").trace) ∧
    ((button_wol writeErrNet "11:22:33:44:55:66" "255.255.255.255" "9" "eth0").data3 =
        some (hexDump (magicPacket (List.replicate 102 0)
          [0x11, 0x22, 0x33, 0x44, 0x55, 0x66])) →
      (writeErrNet.write (magicPacket (List.replicate 102 0)
        [0x11, 0x22, 0x33, 0x44, 0x55, 0x66])).2 = none ∧
      102 ≤ (writeErrNet.write (magicPacket (List.replicate 102 0)
        [0x11, 0x22, 0x33, 0x44, 0x55, 0x66])).1) :=
  wol_send_result writeErrNet "11:22:33:44:55:66" "255.255.255.255" "9" "eth0"
    [0x11, 0x22, 0x33, 0x44, 0x55, 0x66] rfl (by decide) rfl
    (fun _ _ h => by simp [writeErrNet] at h)

/-- C6. After a successful send the handler shows the dump of its 102-byte
packet. The dump of any 102-byte packet is the header line followed by the
bytes in order, each as `%02x` (two lowercase hexadecimal digits), sixteen to
a line and separated by single spaces: six full lines, each closed by a line
feed, and a last line of six bytes, closed by a space. For the MAC
11:22:33:44:55:66 the first line of the dump is
"ff ff ff ff ff ff 11 22 33 44 55 66 11 22 33 44". -/
theorem wol_dump_format (net : Net) (wolmac broadcastaddr wolport selected : String)
    (m : List Nat) (hp : net.parseMAC wolmac = Except.ok m) (hm : m.length = 6)
    (hd : net.dialUDP "udp" (selectLocal net (addressesOf net selected))
      (resolved net broadcastaddr wolport) = Except.ok ())
    (hw : (net.write (magicPacket (List.replicate 102 0) m)).2 = none) :
    (button_wol net wolmac broadcastaddr wolport selected).data3 =
      some (hexDump (button_wol net wolmac broadcastaddr wolport selected).mp) ∧
    (button_wol net wolmac broadcastaddr wolport selected).mp.length = 102 ∧
    (∀ mp : List Nat, mp.length = 102 →
      hexDump mp =
        "Magic Packet sent : \n" ++
        row (mp.take 16) ++ "\n" ++
        row ((mp.drop 16).take 16) ++ "\n" ++
        row ((mp.drop 32).take 16) ++ "\n" ++
        row ((mp.drop 48).take 16) ++ "\n" ++
        row ((mp.drop 64).take 16) ++ "\n" ++
        row ((mp.drop 80).take 16) ++ "\n" ++
        row (mp.drop 96) ++ " ") ∧
    (∀ b, b < 256 → hex02 b = String.mk (List.leftpad 2 '0' (Nat.toDigits 16 b))) ∧
    (m = [0x11, 0x22, 0x33, 0x44, 0x55, 0x66] →
      row ((button_wol net wolmac broadcastaddr wolport selected).mp.take 16) =
        "ff ff ff ff ff ff 11 22 33 44 55 66 11 22 33 44") := by
  rw [button_wol_mp net wolmac broadcastaddr wolport selected m hp hm]
  refine ⟨?_, magicPacket_length m hm, hexDump_rows, hex02_toDigits, ?_⟩
  · rw [button_wol_valid net wolmac broadcastaddr wolport selected m hp hm, hd]
    simp only [hw]
  · intro h
    rw [h]
    exact row_sample

theorem wol_dump_format_witness :
    (button_wol sampleNet
        "11:22:33:44:55:66" "255.255.255.255" "9" "eth0").data3 =
      some (hexDump (button_wol sampleNet
        "11:22:33:44:55:66" "255.255.255.255" "9" "eth0").mp) ∧
    row ((button_wol sampleNet
        "11:22:33:44:55:66" "255.255.255.255" "9" "eth0").mp.take 16) =
      "ff ff ff ff ff ff 11 22 33 44 55 66 11 22 33 44" :=
  ⟨(wol_dump_format sampleNet
      "11:22:33:44:55:66" "255.255.255.255" "9" "eth0"
      [0x11, 0x22, 0x33, 0x44, 0x55, 0x66] rfl (by decide) rfl rfl).1,
   (wol_dump_format sampleNet
      "11:22:33:44:55:66" "255.255.255.255" "9" "eth0"
      [0x11, 0x22, 0x33, 0x44, 0x55, 0x66] rfl (by decide) rfl rfl).2.2.2.2 rfl⟩

/-- C7. The handler never returns with an open socket; and on every path on
which `DialUDP` succeeded (the write-error path and the success path) the
socket is closed when the handler returns, the last call of the handler being
the deferred `conn.Close()`. -/
theorem wol_socket_closed (net : Net) (wolmac broadcastaddr wolport selected : String) :
    (button_wol net wolmac broadcastaddr wolport selected).sock ≠ Sock.opened ∧
    (∀ m, net.parseMAC wolmac = Except.ok m → m.length = 6 →
      net.dialUDP "udp" (selectLocal net (addressesOf net selected))
        (resolved net broadcastaddr wolport) = Except.ok () →
      (button_wol net wolmac broadcastaddr wolport selected).sock = Sock.closed ∧
      (button_wol net wolmac broadcastaddr wolport selected).trace.getLast? =
        some Event.close) := by
  refine ⟨?_, ?_⟩
  · rcases hp : net.parseMAC wolmac with e | m
    · rw [button_wol_parse_error net wolmac broadcastaddr wolport selected e hp]
      simp
    · by_cases hm : m.length = 6
      · rw [button_wol_valid net wolmac broadcastaddr wolport selected m hp hm]
        split
        · simp
        · split <;> simp
      · rw [button_wol_bad_length net wolmac broadcastaddr wolport selected m hp hm]
        simp
  · intro m hp hm hd
    rw [button_wol_valid net wolmac broadcastaddr wolport selected m hp hm, hd]
    cases (net.write (magicPacket (List.replicate 102 0) m)).2 <;>
      simp [List.getLast?_append]

theorem wol_socket_closed_witness :
    (button_wol sampleNet "11:22:33:44:55:66" "255.255.255.255" "9" "eth0").sock = Sock.closed ∧
    (button_wol sampleNet "11:22:33:44:55:66" "255.255.255.255" "9" "eth0").trace.getLast? =
      some Event.close :=
  (wol_socket_closed sampleNet "11:22:33:44:55:66" "255.255.255.255" "9" "eth0").2
    [0x11, 0x22, 0x33, 0x44, 0x55, 0x66] rfl (by decide) rfl

/-- C8. When no address of the list (the empty list of a failed interface
lookup included) has an IPv4, non-loopback IP, the handler calls `DialUDP`
with a nil local address; when that call succeeds it writes the packet, and
when the write returns no error it shows the dump: the missing source
address is never an error of its own. -/
theorem wol_no_source_still_sends (net : Net)
    (wolmac broadcastaddr wolport selected : String) (m : List Nat)
    (hp : net.parseMAC wolmac = Except.ok m) (hm : m.length = 6)
    (hnone : ∀ a ∈ addressesOf net selected, ∀ ip, a.ip? = some ip →
      net.isLoopback ip = true ∨ net.to4 ip = none) :
    selectLocal net (addressesOf net selected) = none ∧
    Event.dialUDP "udp" none (resolved net broadcastaddr wolport) ∈
      (button_wol net wolmac broadcastaddr wolport selected).trace ∧
    (net.dialUDP "udp" none (resolved net broadcastaddr wolport) = Except.ok () →
      Event.write (magicPacket (List.replicate 102 0) m) ∈
        (button_wol net wolmac broadcastaddr wolport selected).trace ∧
      ((net.write (magicPacket (List.replicate 102 0) m)).2 = none →
        (button_wol net wolmac broadcastaddr wolport selected).data3 =
          some (hexDump (magicPacket (List.replicate 102 0) m)))) := by
  have hsel : selectLocal net (addressesOf net selected) = none := by
    rw [selectLocal_eq_lastQualifying]
    unfold lastQualifying
    have hf : (addressesOf net selected).filter (qualifies net) = [] := by
      rw [List.filter_eq_nil_iff]
      intro a ha
      cases a with
      | ipNet ip mask =>
        rcases hnone _ ha ip rfl with h | h <;> simp [qualifies, h]
      | ipAddr ip zone => simp [qualifies]
      | other s => simp [qualifies]
    rw [hf]
    rfl
  refine ⟨hsel, ?_, ?_⟩
  · have := button_wol_dial_mem net wolmac broadcastaddr wolport selected m hp hm
    rwa [hsel] at this
  · intro hd
    rw [button_wol_valid net wolmac broadcastaddr wolport selected m hp hm, hsel, hd]
    refine ⟨?_, ?_⟩
    · cases (net.write (magicPacket (List.replicate 102 0) m)).2 <;> simp
    · intro hw
      simp only [hw]

theorem wol_no_source_still_sends_witness :
    selectLocal noIfaceNet (addressesOf noIfaceNet "eth7") = none ∧
    Event.dialUDP "udp" none (resolved noIfaceNet "255.255.255.255" "9") ∈
      (button_wol noIfaceNet "11:22:33:44:55:66" "255.255.255.255" "9" "eth7").trace ∧
    (noIfaceNet.dialUDP "udp" none (resolved noIfaceNet "255.255.255.255" "9") = Except.ok () →
      Event.write (magicPacket (List.replicate 102 0) [0x11, 0x22, 0x33, 0x44, 0x55, 0x66]) ∈
        (button_wol noIfaceNet "11:22:33:44:55:66" "255.255.255.255" "9" "eth7").trace ∧
      ((noIfaceNet.write (magicPacket (List.replicate 102 0)
          [0x11, 0x22, 0x33, 0x44, 0x55, 0x66])).2 = none →
        (button_wol noIfaceNet "11:22:33:44:55:66" "255.255.255.255" "9" "eth7").data3 =
          some (hexDump (magicPacket (List.replicate 102 0)
            [0x11, 0x22, 0x33, 0x44, 0x55, 0x66])))) :=
  wol_no_source_still_sends noIfaceNet "11:22:33:44:55:66" "255.255.255.255" "9" "eth7"
    [0x11, 0x22, 0x33, 0x44, 0x55, 0x66] rfl (by decide)
    (fun a ha => by simp [addressesOf, noIfaceNet, Except.toOption] at ha)

/-! ## Lemmas on the layout -/

theorem visibleCount_foldl (cs : List CanvasObject) (n : Nat) :
    cs.foldl (fun count child => if child.visible then count + 1 else count) n =
      n + (cs.filter (fun c => c.visible)).length := by
  induction cs generalizing n with
  | nil => simp
  | cons c cs ih =>
    cases hv : c.visible
    · simp [hv, ih]
    · simp [hv, ih]
      omega

theorem visibleCount_eq (cs : List CanvasObject) :
    visibleCount cs = (cs.filter (fun c => c.visible)).length := by
  simp [visibleCount, visibleCount_foldl]

/-- The loop succeeds while the ratios last; each visible child gets the width
`tcw * ratios[i]`, and for a non-negative `tcw` the children are laid out from
left to right, `padding` apart. -/
theorem layoutLoop_ok (ratios : List ℚ) (horizontal : Bool) (padding tcw ch : ℚ) :
    ∀ (cs : List CanvasObject) (st : LoopState),
      st.i + (cs.filter (fun c => c.visible)).length ≤ ratios.length →
      ∃ out, layoutLoop ratios horizontal padding tcw ch cs st = some out ∧
        out.map (fun c => c.visible) = cs.map (fun c => c.visible) ∧
        (∀ k c, (out.filter (fun c => c.visible))[k]? = some c →
          ∃ r, ratios[st.i + k]? = some r ∧ c.size.1 = tcw * r) ∧
        (0 < padding → (∀ r ∈ ratios, 0 ≤ r) → 0 ≤ tcw →
          (st.i ≠ 0 → ∀ c ∈ out.filter (fun c => c.visible), st.x2 + padding ≤ c.pos.1) ∧
          (out.filter (fun c => c.visible)).Pairwise
            (fun a b => a.pos.1 + a.size.1 < b.pos.1)) := by
  intro cs
  induction cs with
  | nil =>
    intro st _
    exact ⟨[], rfl, rfl, by simp, fun _ _ _ => by simp⟩
  | cons c cs ih =>
    intro st hst
    cases hv : c.visible with
    | false =>
      simp only [List.filter_cons, hv, Bool.false_eq_true, if_false] at hst
      obtain ⟨out, h1, h2, h3, h4⟩ := ih st hst
      refine ⟨c :: out, ?_, ?_, ?_, ?_⟩
      · simp [layoutLoop, layoutStep, hv, h1]
      · simp [h2, hv]
      · simpa [List.filter_cons, hv] using h3
      · simpa [List.filter_cons, hv] using h4
    | true =>
      simp only [List.filter_cons, hv, if_true, List.length_cons] at hst
      have hi : st.i < ratios.length := by omega
      obtain ⟨r, hr'⟩ : ∃ r, ratios[st.i]? = some r := ⟨ratios[st.i], List.getElem?_eq_getElem hi⟩
      obtain ⟨st', c', hstep, hi', hx2, hpos, hsize, hvis⟩ :
          ∃ st' c', layoutStep ratios horizontal padding tcw ch st c = some (st', c') ∧
            st'.i = st.i + 1 ∧ st'.x2 = c'.pos.1 + tcw * r ∧
            c'.pos.1 = (if st.i = 0 then 0 else st.x2 + padding) ∧
            c'.size.1 = tcw * r ∧ c'.visible = true := by
        simp only [layoutStep, hv, hr']
        refine ⟨_, _, rfl, rfl, ?_, ?_, ?_, rfl⟩ <;> simp
      obtain ⟨out, h1, h2, h3, h4⟩ := ih st' (by rw [hi']; omega)
      refine ⟨c' :: out, ?_, ?_, ?_, ?_⟩
      · simp [layoutLoop, hstep, h1]
      · simp [h2, hv, hvis]
      · intro k d hk
        simp only [List.filter_cons, hvis, if_true] at hk
        cases k with
        | zero =>
          simp only [List.getElem?_cons_zero, Option.some.injEq] at hk
          subst hk
          exact ⟨r, by simpa using hr', hsize⟩
        | succ k =>
          simp only [List.getElem?_cons_succ] at hk
          obtain ⟨r2, hr2, hs2⟩ := h3 k d hk
          refine ⟨r2, ?_, hs2⟩
          rw [← hr2, hi']
          congr 1
          omega
      · intro hpad hr htcw
        have hr0 : 0 ≤ r := hr r (List.getElem?_mem hr')
        obtain ⟨hlow, hpw⟩ := h4 hpad hr htcw
        have hlow' := hlow (by rw [hi']; omega)
        have hnn : 0 ≤ tcw * r := mul_nonneg htcw hr0
        simp only [List.filter_cons, hvis, if_true]
        refine ⟨?_, ?_⟩
        · intro hne d hd
          rcases List.mem_cons.1 hd with rfl | hd
          · rw [hpos, if_neg hne]
          · have := hlow' d hd
            rw [hx2, hpos, if_neg hne] at this
            linarith
        · refine List.pairwise_cons.2 ⟨?_, hpw⟩
          intro d hd
          have := hlow' d hd
          rw [hx2] at this
          rw [hsize]
          linarith


/-- The loop panics when the visible children outnumber the ratios left. -/
theorem layoutLoop_none (ratios : List ℚ) (horizontal : Bool) (padding tcw ch : ℚ) :
    ∀ (cs : List CanvasObject) (st : LoopState), st.i ≤ ratios.length →
      ratios.length < st.i + (cs.filter (fun c => c.visible)).length →
      layoutLoop ratios horizontal padding tcw ch cs st = none := by
  intro cs
  induction cs with
  | nil => intro st h1 h2; simp at h2; omega
  | cons c cs ih =>
    intro st h1 h2
    cases hv : c.visible with
    | false =>
      simp only [List.filter_cons, hv, Bool.false_eq_true, if_false] at h2
      simp [layoutLoop, layoutStep, hv, ih st h1 h2]
    | true =>
      simp only [List.filter_cons, hv, if_true, List.length_cons] at h2
      rcases hr : ratios[st.i]? with _ | r
      · simp [layoutLoop, layoutStep, hv, hr]
      · have hi : st.i < ratios.length := by
          rcases Nat.lt_or_ge st.i ratios.length with h | h
          · exact h
          · rw [List.getElem?_eq_none h] at hr; cases hr
        simp only [layoutLoop, layoutStep, hv, hr, Bool.not_true, Bool.false_eq_true, if_false]
        rw [ih _ (by simpa using hi) (by simp only []; omega)]

theorem layout_isSome_iff (g : adaptiveGridLayoutWithRatios) (deviceHorizontal : Bool)
    (padding : ℚ) (objects : List CanvasObject) (size : ℚ × ℚ) :
    (g.Layout deviceHorizontal padding objects size).isSome = true ↔
      visibleCount objects ≤ g.ratios.length := by
  rw [visibleCount_eq]
  constructor
  · intro h
    by_contra hlt
    rw [adaptiveGridLayoutWithRatios.Layout, layoutLoop_none _ _ _ _ _ _ _ (by simp)
      (by simpa using hlt)] at h
    cases h
  · intro h
    obtain ⟨out, h1, -⟩ :=
      layoutLoop_ok g.ratios (g.horizontal deviceHorizontal) padding
        (g.tcellWidth deviceHorizontal padding objects size)
        (g.cellHeight deviceHorizontal padding objects size) objects
        { row := 0, col := 0, i := 0, x1 := 0, x2 := 0, y1 := 0, y2 := 0 } (by simpa using h)
    rw [adaptiveGridLayoutWithRatios.Layout, h1]
    rfl


theorem pick_length (objects : List CanvasObject) :
    ∀ (ks : List Nat) (os : List CanvasObject), pick objects ks = some os →
      os.length = ks.length := by
  intro ks
  induction ks with
  | nil => intro os h; simp [pick] at h; simp [← h]
  | cons k ks ih =>
    intro os h
    simp only [pick] at h
    split at h
    · cases h
    · split at h
      · cases h
      · rename_i os' hos
        cases h
        simp [ih os' hos]

theorem gridOf_length (objects : List CanvasObject) (ratios : List ℚ) (ks : List Nat)
    (c : Container) (hlen : ratios.length = ks.length) (h : gridOf objects ratios ks = some c) :
    c.objects.length = c.layout.ratios.length := by
  simp only [gridOf] at h
  split at h
  · cases h
  · rename_i os hos
    cases h
    simp [NewAdaptiveGridWithRatios, NewAdaptiveGridLayoutWithRatios, pick_length _ _ _ hos, hlen]

theorem NewVBox_mem :
    ∀ (l : List (Option Container)) (cs : List Container), NewVBox l = some cs →
      ∀ c ∈ cs, some c ∈ l := by
  intro l
  induction l with
  | nil =>
    intro cs h c hc
    simp only [NewVBox, Option.some.injEq] at h
    subst h
    cases hc
  | cons o l ih =>
    intro cs h c hc
    cases o with
    | none => simp [NewVBox] at h
    | some d =>
      simp only [NewVBox] at h
      split at h
      · cases h
      · rename_i cs' hcs
        cases h
        rcases List.mem_cons.1 hc with rfl | hc
        · simp
        · exact List.mem_cons_of_mem _ (ih cs' hcs c hc)

theorem generate_context_lengths (index : Int) (objects : List CanvasObject)
    (grids : List Container) (h : generate_context index objects = some grids) :
    ∀ c ∈ grids, c.objects.length = c.layout.ratios.length := by
  intro c hc
  have hm := fun l (h : NewVBox l = some grids) => NewVBox_mem l grids h c hc
  unfold generate_context at h
  split at h
  · obtain hm | hm | hm | hm := by simpa using hm _ h
    all_goals exact gridOf_length _ _ _ _ rfl hm.symm
  · obtain hm | hm | hm | hm := by simpa using hm _ h
    all_goals exact gridOf_length _ _ _ _ rfl hm.symm
  · obtain hm | hm | hm | hm | hm := by simpa using hm _ h
    all_goals exact gridOf_length _ _ _ _ rfl hm.symm
  · obtain hm | hm | hm := by simpa using hm _ h
    all_goals exact gridOf_length _ _ _ _ rfl hm.symm
  · have hm := by simpa using hm _ h
    exact gridOf_length _ _ _ _ rfl hm.symm


theorem gridOf_ratios (objects : List CanvasObject) (ratios : List ℚ) (ks : List Nat)
    (c : Container) (h : gridOf objects ratios ks = some c) : c.layout.ratios = ratios := by
  simp only [gridOf] at h
  split at h
  · cases h
  · cases h
    rfl

/-- The ratios that `generate_context` writes are non-negative. -/
theorem generate_context_nonneg (index : Int) (objects : List CanvasObject)
    (grids : List Container) (h : generate_context index objects = some grids) :
    ∀ c ∈ grids, ∀ r ∈ c.layout.ratios, 0 ≤ r := by
  intro c hc
  have hm := fun l (h : NewVBox l = some grids) => NewVBox_mem l grids h c hc
  unfold generate_context at h
  split at h
  · obtain hm | hm | hm | hm := by simpa using hm _ h
    all_goals rw [gridOf_ratios _ _ _ _ hm.symm]; norm_num
  · obtain hm | hm | hm | hm := by simpa using hm _ h
    all_goals rw [gridOf_ratios _ _ _ _ hm.symm]; norm_num
  · obtain hm | hm | hm | hm | hm := by simpa using hm _ h
    all_goals rw [gridOf_ratios _ _ _ _ hm.symm]; norm_num
  · obtain hm | hm | hm := by simpa using hm _ h
    all_goals rw [gridOf_ratios _ _ _ _ hm.symm]; norm_num
  · have hm := by simpa using hm _ h
    rw [gridOf_ratios _ _ _ _ hm.symm]; norm_num

/-- Within the range of the ratios `Layout` does what is asked of it. For every
grid, every container size and every list of children of which at most as
many are visible as there are ratios (exact arithmetic, positive padding,
non-negative ratios), each visible child gets a rectangle, the width of the
`i`-th visible child is `tcellWidth * ratios[i]`, and the rectangles of two
distinct visible children do not overlap. -/
theorem layout_rectangles_of_count (g : adaptiveGridLayoutWithRatios) (deviceHorizontal : Bool)
    (padding : ℚ) (objects : List CanvasObject) (size : ℚ × ℚ)
    (hpad : 0 < padding) (hr : ∀ r ∈ g.ratios, 0 ≤ r)
    (hcount : visibleCount objects ≤ g.ratios.length) :
    ∃ out, g.Layout deviceHorizontal padding objects size = some out ∧
      out.map (fun c => c.visible) = objects.map (fun c => c.visible) ∧
      (∀ (i : Nat) (c : CanvasObject), (out.filter (fun c => c.visible))[i]? = some c →
        ∃ r, g.ratios[i]? = some r ∧
          c.size.1 = g.tcellWidth deviceHorizontal padding objects size * r) ∧
      (∀ (i j : Nat) (a b : CanvasObject), i ≠ j → (out.filter (fun c => c.visible))[i]? = some a →
        (out.filter (fun c => c.visible))[j]? = some b → ¬ overlaps a b) := by
  rw [visibleCount_eq] at hcount
  obtain ⟨out, h1, h2, h3, h4⟩ :=
    layoutLoop_ok g.ratios (g.horizontal deviceHorizontal) padding
      (g.tcellWidth deviceHorizontal padding objects size)
      (g.cellHeight deviceHorizontal padding objects size) objects
      { row := 0, col := 0, i := 0, x1 := 0, x2 := 0, y1 := 0, y2 := 0 } (by simpa using hcount)
  refine ⟨out, h1, h2, ?_, ?_⟩
  · intro i c hc
    simpa using h3 i c hc
  · have key : ∀ (i j : Nat) (a b : CanvasObject), i < j → (out.filter (fun c => c.visible))[i]? = some a →
        (out.filter (fun c => c.visible))[j]? = some b →
        ¬ (a.pos.1 < b.pos.1 + b.size.1 ∧ b.pos.1 < a.pos.1 + a.size.1) := by
      intro i j a b hij ha hb
      rcases le_or_lt 0 (g.tcellWidth deviceHorizontal padding objects size) with htcw | htcw
      · have hpw := (h4 hpad hr htcw).2
        rw [List.pairwise_iff_getElem] at hpw
        obtain ⟨hi, rfl⟩ := List.getElem?_eq_some_iff.1 ha
        obtain ⟨hj, rfl⟩ := List.getElem?_eq_some_iff.1 hb
        have := hpw i j hi hj hij
        intro ⟨_, h⟩
        linarith
      · obtain ⟨ra, hra, hsa⟩ := h3 i a ha
        obtain ⟨rb, hrb, hsb⟩ := h3 j b hb
        have h0a : a.size.1 ≤ 0 := by
          rw [hsa]; exact mul_nonpos_of_nonpos_of_nonneg htcw.le (hr ra (List.getElem?_mem hra))
        have h0b : b.size.1 ≤ 0 := by
          rw [hsb]; exact mul_nonpos_of_nonpos_of_nonneg htcw.le (hr rb (List.getElem?_mem hrb))
        intro ⟨h5, h6⟩
        linarith
    intro i j a b hij ha hb hov
    rcases Nat.lt_or_gt_of_ne hij with h | h
    · exact key i j a b h ha hb ⟨hov.1, hov.2.1⟩
    · exact key j i b a h hb ha ⟨hov.2.1, hov.1⟩

/-! ## Claims on the layout -/

/-- C10. `Layout` reads `ratios[i]` for the `i`-th visible child, so it runs
without an index panic exactly when the visible children are at most as many
as the ratios; and every grid that `generate_context` builds has as many
children as ratios, so `Layout` never panics on it. -/
theorem layout_ratio_index_in_range (g : adaptiveGridLayoutWithRatios)
    (deviceHorizontal : Bool) (padding : ℚ) (objects : List CanvasObject) (size : ℚ × ℚ)
    (index : Int) (widgets : List CanvasObject) (grids : List Container)
    (h : generate_context index widgets = some grids) :
    ((g.Layout deviceHorizontal padding objects size).isSome = true ↔
      visibleCount objects ≤ g.ratios.length) ∧
    (∀ c ∈ grids, c.objects.length = c.layout.ratios.length ∧
      (c.layout.Layout deviceHorizontal padding c.objects size).isSome = true) := by
  refine ⟨layout_isSome_iff g deviceHorizontal padding objects size, ?_⟩
  intro c hc
  have hlen := generate_context_lengths index widgets grids h c hc
  refine ⟨hlen, ?_⟩
  rw [layout_isSome_iff, visibleCount_eq, ← hlen]
  exact List.length_filter_le _ _

theorem layout_ratio_index_in_range_witness :
    (((NewAdaptiveGridLayoutWithRatios [1 / 2, 1 / 2]).Layout true 4
        [obj true, obj true, obj true] (600, 200)).isSome = true ↔
      visibleCount [obj true, obj true, obj true] ≤
        (NewAdaptiveGridLayoutWithRatios [1 / 2, 1 / 2]).ratios.length) ∧
    (∀ c ∈ [NewAdaptiveGridWithRatios [0.25, 0.25, 0.25, 0.25] (List.replicate 4 (obj true)),
        NewAdaptiveGridWithRatios [0.25, 0.25, 0.5] (List.replicate 3 (obj true)),
        NewAdaptiveGridWithRatios [1] [obj true],
        NewAdaptiveGridWithRatios [1] [obj true]],
      c.objects.length = c.layout.ratios.length ∧
      (c.layout.Layout true 4 c.objects (600, 200)).isSome = true) :=
  layout_ratio_index_in_range (NewAdaptiveGridLayoutWithRatios [1 / 2, 1 / 2]) true 4
    [obj true, obj true, obj true] (600, 200) 1 (List.replicate 10 (obj true)) _ (by rfl)

end NetworkTools
